import Mathlib

/-!
Verification of the rate-limited API gateway layer of the x-twitter-mcp-server
repository (src/x_twitter_mcp/server.py), shallowly embedded in Lean 4.

Modelling conventions:
* Time is an abstract `Nat` tick count (the Python code uses `datetime.now()`;
  every handler here takes the current time `now` as an explicit argument).
  `timedelta(minutes=15)` is rendered as `15 * 60` ticks and
  `timedelta(hours=24)` as `24 * 60 * 60` ticks.
* The module-level mutable dictionary `rate_limit_counters` (a `defaultdict`)
  is rendered as a function `String → Option RateLimitCounter`; `none` means
  the key is absent.  The defaultdict default factory
  `{"count": 0, "reset_time": datetime.now()}` is rendered by `getCounter`,
  which materialises `{count := 0, reset_time := now}` for an absent key.
* The process environment (`os.getenv`) is a function `String → Option String`;
  Python falsiness of `os.getenv(v)` (missing or empty) is `envMissing`.
* Network traffic is not executed: each handler receives the upstream
  response data as an explicit oracle argument and returns, besides its
  result and the updated state, the list of upstream API calls it performed,
  in order (`List ApiCall`).  Python exceptions are rendered as
  `Except HandlerError`.
-/

/-- One per-category mutable counter, `{"count": ..., "reset_time": ...}`. -/
structure RateLimitCounter where
  count : Nat
  reset_time : Nat
deriving DecidableEq, Repr

/-- One entry of the `RATE_LIMITS` table, `{"limit": ..., "window": ...}`. -/
structure RateLimitPolicy where
  limit : Nat
  window : Nat
deriving DecidableEq, Repr

/-- The state of the module-level `rate_limit_counters` defaultdict. -/
abbrev RLState := String → Option RateLimitCounter

/-- The static `RATE_LIMITS` policy table of server.py. -/
def RATE_LIMITS (action_type : String) : Option RateLimitPolicy :=
  if action_type = "tweet_actions" then some { limit := 300, window := 15 * 60 }
  else if action_type = "dm_actions" then some { limit := 1000, window := 15 * 60 }
  else if action_type = "follow_actions" then some { limit := 400, window := 24 * 60 * 60 }
  else if action_type = "like_actions" then some { limit := 1000, window := 24 * 60 * 60 }
  else none

/-- Initial (empty) state of `rate_limit_counters`. -/
def rate_limit_counters_init : RLState := fun _ => none

/-- `rate_limit_counters[action_type]`: defaultdict lookup.  For an absent
key the default factory runs, yielding `{count := 0, reset_time := now}`
(the factory calls `datetime.now()`). -/
def getCounter (m : RLState) (a : String) (now : Nat) : RateLimitCounter :=
  match m a with
  | some c => c
  | none => { count := 0, reset_time := now }

/-- Store one category's counter back into the dictionary. -/
def setCounter (m : RLState) (a : String) (c : RateLimitCounter) : RLState :=
  fun b => if b = a then some c else m b

/-- `check_rate_limit` of server.py, with the ambient clock and the global
dictionary made explicit.  Returns the admission boolean and the updated
dictionary. -/
def check_rate_limit (action_type : String) (now : Nat) (m : RLState) :
    Bool × RLState :=
  match RATE_LIMITS action_type with
  | none => (true, m)
  | some config =>
    let c0 := getCounter m action_type now
    let c1 := if c0.reset_time ≤ now then
        { count := 0, reset_time := now + config.window } else c0
    if config.limit ≤ c1.count then (false, setCounter m action_type c1)
    else (true, setCounter m action_type { c1 with count := c1.count + 1 })

/-- Run `check_rate_limit` for one category at each time in `ts`, in order,
threading the dictionary; collect the admission booleans. -/
def callSeq (a : String) : List Nat → RLState → List Bool × RLState
  | [], m => ([], m)
  | t :: ts, m =>
    let r := check_rate_limit a t m
    let rest := callSeq a ts r.2
    (r.1 :: rest.1, rest.2)

/-- Dictionary states reachable from the empty initial dictionary by any
sequence of `check_rate_limit` calls at any times. -/
inductive ReachableRL : RLState → Prop where
  | init : ReachableRL rate_limit_counters_init
  | step (a : String) (now : Nat) (m : RLState) :
      ReachableRL m → ReachableRL (check_rate_limit a now m).2

theorem RATE_LIMITS_limit_pos {a : String} {p : RateLimitPolicy}
    (h : RATE_LIMITS a = some p) : 0 < p.limit := by
  unfold RATE_LIMITS at h
  repeat' split at h
  all_goals first
    | (injection h with h2; subst h2; decide)
    | simp at h

theorem setCounter_self (m : RLState) (a : String) (c : RateLimitCounter)
    (h : m a = some c) : setCounter m a c = m := by
  funext b
  by_cases hb : b = a
  · subst hb; simp [setCounter, h]
  · simp [setCounter, hb]

theorem setCounter_same (m : RLState) (a : String) (c : RateLimitCounter) :
    setCounter m a c a = some c := by
  simp [setCounter]

theorem setCounter_other (m : RLState) (a b : String) (c : RateLimitCounter)
    (h : b ≠ a) : setCounter m a c b = m b := by
  simp [setCounter, h]

theorem check_rate_limit_unconfigured (a : String) (now : Nat) (m : RLState)
    (h : RATE_LIMITS a = none) : check_rate_limit a now m = (true, m) := by
  simp [check_rate_limit, h]

theorem check_rate_limit_stale {a : String} {p : RateLimitPolicy}
    (now : Nat) (m : RLState) (c r : Nat)
    (h : RATE_LIMITS a = some p) (hm : m a = some ⟨c, r⟩) (hr : r ≤ now) :
    check_rate_limit a now m =
      (true, setCounter m a ⟨1, now + p.window⟩) := by
  have hpos := RATE_LIMITS_limit_pos h
  have hlt : ¬ p.limit ≤ 0 := by omega
  simp [check_rate_limit, h, getCounter, hm, hr, hlt]

theorem check_rate_limit_reject {a : String} {p : RateLimitPolicy}
    (now : Nat) (m : RLState) (c r : Nat)
    (h : RATE_LIMITS a = some p) (hm : m a = some ⟨c, r⟩) (hr : now < r)
    (hc : p.limit ≤ c) :
    check_rate_limit a now m = (false, m) := by
  have hr2 : ¬ r ≤ now := by omega
  simp [check_rate_limit, h, getCounter, hm, hr2, hc,
    setCounter_self m a ⟨c, r⟩ hm]

theorem check_rate_limit_increment {a : String} {p : RateLimitPolicy}
    (now : Nat) (m : RLState) (c r : Nat)
    (h : RATE_LIMITS a = some p) (hm : m a = some ⟨c, r⟩) (hr : now < r)
    (hc : c < p.limit) :
    check_rate_limit a now m = (true, setCounter m a ⟨c + 1, r⟩) := by
  have hr2 : ¬ r ≤ now := by omega
  have hc2 : ¬ p.limit ≤ c := by omega
  simp [check_rate_limit, h, getCounter, hm, hr2, hc2]

theorem check_rate_limit_other (a : String) (now : Nat) (m : RLState)
    (b : String) (h : b ≠ a) : (check_rate_limit a now m).2 b = m b := by
  unfold check_rate_limit
  cases hc : RATE_LIMITS a with
  | none => simp
  | some p =>
    simp only []
    repeat' split
    all_goals simp [setCounter, h]

theorem callSeq_admits {a : String} {p : RateLimitPolicy}
    (h : RATE_LIMITS a = some p) :
    ∀ (ts : List Nat) (m : RLState) (c r : Nat),
      m a = some ⟨c, r⟩ → (∀ t ∈ ts, t < r) → c + ts.length ≤ p.limit →
      callSeq a ts m = (List.replicate ts.length true, setCounter m a ⟨c + ts.length, r⟩)
  | [], m, c, r, hm, _, _ => by
    simp [callSeq, setCounter_self m a ⟨c, r⟩ hm]
  | t :: ts, m, c, r, hm, hts, hlen => by
    have ht : t < r := hts t (by simp)
    have hc : c < p.limit := by
      simp only [List.length_cons] at hlen; omega
    have hstep := check_rate_limit_increment t m c r h hm ht hc
    have hm2 : setCounter m a ⟨c + 1, r⟩ a = some ⟨c + 1, r⟩ := setCounter_same m a _
    have hts2 : ∀ u ∈ ts, u < r := fun u hu => hts u (by simp [hu])
    have hlen2 : c + 1 + ts.length ≤ p.limit := by
      simp only [List.length_cons] at hlen; omega
    have hrec := callSeq_admits h ts (setCounter m a ⟨c + 1, r⟩) (c + 1) r hm2 hts2 hlen2
    have hsets : setCounter (setCounter m a ⟨c + 1, r⟩) a ⟨c + 1 + ts.length, r⟩ =
        setCounter m a ⟨c + (ts.length + 1), r⟩ := by
      funext b
      by_cases hb : b = a
      · subst hb
        simp only [setCounter_same]
        congr 2
        omega
      · simp [setCounter, hb]
    simp only [callSeq, hstep, hrec, hsets, List.length_cons, List.replicate_succ]

instance {e a : Type} [DecidableEq e] [DecidableEq a] : DecidableEq (Except e a) :=
  fun x y =>
    match x, y with
    | .error u, .error v =>
      if h : u = v then .isTrue (by rw [h])
      else .isFalse (fun hc => h (Except.error.inj hc))
    | .error _, .ok _ => .isFalse (fun hc => Except.noConfusion hc)
    | .ok _, .error _ => .isFalse (fun hc => Except.noConfusion hc)
    | .ok u, .ok v =>
      if h : u = v then .isTrue (by rw [h])
      else .isFalse (fun hc => h (Except.ok.inj hc))

/-- Kinds of failure a handler can surface (Python exception classes):
`config` is `EnvironmentError` from `initialize_twitter_clients`, `rateLimit`
is the generic `Exception` raised on a denied admission, `upstream` is a
tweepy/transport error propagated from the platform API, and `typeError` is
a Python `TypeError`. -/
inductive HandlerError where
  | config (msg : String)
  | rateLimit (msg : String)
  | upstream (msg : String)
  | typeError (msg : String)
deriving DecidableEq, Repr

/-- The process environment, `os.getenv`. -/
abbrev Env := String → Option String

/-- Python falsiness of `os.getenv(var)`: absent or empty string. -/
def envMissing (env : Env) (v : String) : Bool :=
  match env v with
  | none => true
  | some s => s = ""

/-- The `required_env_vars` list of server.py, in source order. -/
def required_env_vars : List String :=
  ["TWITTER_API_KEY", "TWITTER_API_SECRET", "TWITTER_ACCESS_TOKEN",
   "TWITTER_ACCESS_TOKEN_SECRET", "TWITTER_BEARER_TOKEN"]

/-- `tweepy.Client(...)`: the modern (v2) API handle, holding the five
secrets it was constructed from (tweepy receives `os.getenv` results,
hence `Option String` fields). -/
structure TweepyClient where
  consumer_key : Option String
  consumer_secret : Option String
  access_token : Option String
  access_token_secret : Option String
  bearer_token : Option String
deriving DecidableEq, Repr

/-- `tweepy.API(tweepy.OAuth1UserHandler(...))`: the legacy (v1.1) API
handle, holding the four non-bearer secrets. -/
structure TweepyAPI where
  consumer_key : Option String
  consumer_secret : Option String
  access_token : Option String
  access_token_secret : Option String
deriving DecidableEq, Repr

/-- The two module-level globals `_twitter_client` and `_twitter_v1_api`. -/
structure ClientState where
  _twitter_client : Option TweepyClient
  _twitter_v1_api : Option TweepyAPI
deriving DecidableEq, Repr

/-- Initial client state: both globals are `None`. -/
def clients_init : ClientState :=
  { _twitter_client := none, _twitter_v1_api := none }

/-- `initialize_twitter_clients` of server.py.  Returns the pair (or the
raised `EnvironmentError`) together with the updated globals.  The Python
`for var in required_env_vars: if not os.getenv(var): raise ...` loop fails
on the first falsy variable in source order, which is `List.find?`. -/
def initialize_twitter_clients (env : Env) (st : ClientState) :
    Except HandlerError (TweepyClient × TweepyAPI) × ClientState :=
  match st._twitter_client, st._twitter_v1_api with
  | some c, some a => (.ok (c, a), st)
  | _, _ =>
    match required_env_vars.find? (fun v => envMissing env v) with
    | some v =>
      (.error (.config ("Missing required environment variable: " ++ v)), st)
    | none =>
      let c : TweepyClient :=
        { consumer_key := env "TWITTER_API_KEY",
          consumer_secret := env "TWITTER_API_SECRET",
          access_token := env "TWITTER_ACCESS_TOKEN",
          access_token_secret := env "TWITTER_ACCESS_TOKEN_SECRET",
          bearer_token := env "TWITTER_BEARER_TOKEN" }
      let a : TweepyAPI :=
        { consumer_key := env "TWITTER_API_KEY",
          consumer_secret := env "TWITTER_API_SECRET",
          access_token := env "TWITTER_ACCESS_TOKEN",
          access_token_secret := env "TWITTER_ACCESS_TOKEN_SECRET" }
      (.ok (c, a), { _twitter_client := some c, _twitter_v1_api := some a })

/-- The keyword arguments assembled in `tweet_data` by `post_tweet`. -/
structure TweetData where
  text : String
  in_reply_to_tweet_id : Option String
  media_ids : Option (List String)
deriving DecidableEq, Repr

/-- One upstream platform-API call, recorded in handler traces in the order
the handler performs them. -/
inductive ApiCall where
  | get_users_followers (id : String) (max_results : Option Int)
      (pagination_token : Option String)
  | search_recent_tweets (query : String) (max_results : Int)
      (sort_order : String) (next_token : Option String)
  | media_upload (filename : String)
  | create_tweet (data : TweetData)
  | get_bookmarks
  | remove_bookmark (tweet_id : String)
deriving DecidableEq, Repr

/-- Combined mutable module state the handlers touch. -/
structure GatewayState where
  counters : RLState
  clients : ClientState

/-- A user item of a tweepy list response; `data` is its `.data` payload
(kept opaque as a string). -/
structure TUser where
  data : String
deriving DecidableEq, Repr

/-- Python truthiness of an `Optional[str]` argument. -/
def pyTruthyOptStr (s : Option String) : Bool :=
  match s with
  | none => false
  | some s => !(s = "")

/-- Python truthiness of an `Optional[List]` argument. -/
def pyTruthyOptList {α : Type} (l : Option (List α)) : Bool :=
  match l with
  | none => false
  | some l => !l.isEmpty

/-- Python slice `l[:count]` where `count : Optional[int]`. -/
def pySlice {α : Type} (l : List α) : Option Int → List α
  | none => l
  | some k =>
    if k < 0 then l.take ((l.length : Int) + k).toNat
    else l.take k.toNat

/-- `get_user_followers` of server.py: `follow_actions` admission, client
acquisition, one `get_users_followers` call (the caller-supplied `count` is
passed to `max_results` unmodified), and `[user.data for user in
(followers.data or [])]`. -/
def get_user_followers (now : Nat) (env : Env) (st : GatewayState)
    (user_id : String) (count : Option Int) (cursor : Option String)
    (followers_data : Option (List TUser)) :
    Except HandlerError (List String) × GatewayState × List ApiCall :=
  let rl := check_rate_limit "follow_actions" now st.counters
  if rl.1 = false then
    (.error (.rateLimit "Follow action rate limit exceeded"),
     { counters := rl.2, clients := st.clients }, [])
  else
    match initialize_twitter_clients env st.clients with
    | (.error e, cs) => (.error e, { counters := rl.2, clients := cs }, [])
    | (.ok _, cs) =>
      (.ok ((followers_data.getD []).map TUser.data),
       { counters := rl.2, clients := cs },
       [ApiCall.get_users_followers user_id count cursor])

/-- `get_user_followers_you_know` of server.py: identical to
`get_user_followers` except that the final comprehension is additionally
sliced, `[...][:count]`. -/
def get_user_followers_you_know (now : Nat) (env : Env) (st : GatewayState)
    (user_id : String) (count : Option Int) (cursor : Option String)
    (followers_data : Option (List TUser)) :
    Except HandlerError (List String) × GatewayState × List ApiCall :=
  let rl := check_rate_limit "follow_actions" now st.counters
  if rl.1 = false then
    (.error (.rateLimit "Follow action rate limit exceeded"),
     { counters := rl.2, clients := st.clients }, [])
  else
    match initialize_twitter_clients env st.clients with
    | (.error e, cs) => (.error e, { counters := rl.2, clients := cs }, [])
    | (.ok _, cs) =>
      (.ok (pySlice ((followers_data.getD []).map TUser.data) count),
       { counters := rl.2, clients := cs },
       [ApiCall.get_users_followers user_id count cursor])

/-- The `effective_count` computation of `search_twitter`, together with the
`logger.info` diagnostics it emits (second component). -/
def search_count_clamp (count : Option Int) : Int × List String :=
  match count with
  | none => (100, [])
  | some c =>
    if c < 10 then
      (10, ["Requested count " ++ toString c ++
            " is less than minimum 10. Using 10 instead."])
    else if c > 100 then
      (100, ["Requested count " ++ toString c ++
             " is greater than maximum 100. Using 100 instead."])
    else (c, [])

/-- `search_twitter` of server.py (no rate-limit category): computes
`sort_order` from `product`, clamps `count` into `effective_count`, acquires
the client and performs one `search_recent_tweets` call.  The fourth
component is the list of emitted diagnostics. -/
def search_twitter (env : Env) (cst : ClientState) (query : String)
    (product : Option String) (count : Option Int) (cursor : Option String)
    (tweets_data : Option (List TUser)) :
    Except HandlerError (List String) × ClientState × List ApiCall × List String :=
  let sort_order := if product = some "Top" then "relevancy" else "recency"
  let ec := search_count_clamp count
  match initialize_twitter_clients env cst with
  | (.error e, cs) => (.error e, cs, [], ec.2)
  | (.ok _, cs) =>
    (.ok ((tweets_data.getD []).map TUser.data), cs,
     [ApiCall.search_recent_tweets query ec.1 sort_order cursor], ec.2)

/-- `post_tweet` of server.py: `tweet_actions` admission, client
acquisition, `tweet_data` assembly (reply id if `reply_to` is truthy,
hashtag append if `tags` is truthy, media upload per path if `media_paths`
is truthy), then one `create_tweet` call.  `media_oracle` gives the
`media_id_string` the v1.1 upload returns for a path; `create_data` is the
`tweet.data` payload of the upstream response (`none` = falsy, the handler
then returns `None`). -/
def post_tweet (now : Nat) (env : Env) (st : GatewayState) (text : String)
    (media_paths : Option (List String)) (reply_to : Option String)
    (tags : Option (List String)) (media_oracle : String → String)
    (create_data : Option String) :
    Except HandlerError (Option String) × GatewayState × List ApiCall :=
  let rl := check_rate_limit "tweet_actions" now st.counters
  if rl.1 = false then
    (.error (.rateLimit "Tweet action rate limit exceeded"),
     { counters := rl.2, clients := st.clients }, [])
  else
    match initialize_twitter_clients env st.clients with
    | (.error e, cs) => (.error e, { counters := rl.2, clients := cs }, [])
    | (.ok _, cs) =>
      let d0 : TweetData :=
        { text := text, in_reply_to_tweet_id := none, media_ids := none }
      let d1 := if pyTruthyOptStr reply_to then
          { d0 with in_reply_to_tweet_id := reply_to } else d0
      let d2 := if pyTruthyOptList tags then
          { d1 with text := d1.text ++ " " ++
              String.intercalate " " ((tags.getD []).map (fun tag => "#" ++ tag)) }
        else d1
      let uploads := if pyTruthyOptList media_paths then
          (media_paths.getD []).map ApiCall.media_upload else []
      let d3 := if pyTruthyOptList media_paths then
          { d2 with media_ids := some ((media_paths.getD []).map media_oracle) }
        else d2
      (.ok create_data, { counters := rl.2, clients := cs },
       uploads ++ [ApiCall.create_tweet d3])

/-- The `for bookmark in bookmarks.data: client.remove_bookmark(...)` loop
of `delete_all_bookmarks`.  `remove i = some e` means the upstream delete of
bookmark `i` raises with message `e`; the loop stops at the first failure.
Returns the failure (if any) and the performed calls in order. -/
def removeBookmarksLoop (remove : String → Option String) :
    List String → Option String × List ApiCall
  | [] => (none, [])
  | i :: rest =>
    match remove i with
    | some e => (some e, [ApiCall.remove_bookmark i])
    | none =>
      let r := removeBookmarksLoop remove rest
      (r.1, ApiCall.remove_bookmark i :: r.2)

/-- `delete_all_bookmarks` of server.py: `tweet_actions` admission, client
acquisition, one `get_bookmarks` call, then the delete loop.
`bookmarks_data` is the `.data` field of the `get_bookmarks` response
(`none` = null envelope); the source iterates it WITHOUT the `or []` guard
used by the list handlers, so a null envelope raises a Python `TypeError`. -/
def delete_all_bookmarks (now : Nat) (env : Env) (st : GatewayState)
    (bookmarks_data : Option (List String)) (remove : String → Option String) :
    Except HandlerError String × GatewayState × List ApiCall :=
  let rl := check_rate_limit "tweet_actions" now st.counters
  if rl.1 = false then
    (.error (.rateLimit "Tweet action rate limit exceeded"),
     { counters := rl.2, clients := st.clients }, [])
  else
    match initialize_twitter_clients env st.clients with
    | (.error e, cs) => (.error e, { counters := rl.2, clients := cs }, [])
    | (.ok _, cs) =>
      match bookmarks_data with
      | none =>
        (.error (.typeError "NoneType object is not iterable"),
         { counters := rl.2, clients := cs }, [ApiCall.get_bookmarks])
      | some ids =>
        let lp := removeBookmarksLoop remove ids
        match lp.1 with
        | some e =>
          (.error (.upstream e), { counters := rl.2, clients := cs },
           ApiCall.get_bookmarks :: lp.2)
        | none =>
          (.ok "all bookmarks deleted", { counters := rl.2, clients := cs },
           ApiCall.get_bookmarks :: lp.2)

/-- The mock acknowledgment dictionary `vote_on_poll` returns. -/
structure VoteResult where
  tweet_id : String
  choice : String
  status : String
deriving DecidableEq, Repr

/-- `vote_on_poll` of server.py: `tweet_actions` admission, then the canned
mock dictionary.  Note the signature: the model needs neither an
environment, a client state transition, nor any upstream oracle, because
the source never calls `initialize_twitter_clients` and performs no network
call here. -/
def vote_on_poll (now : Nat) (st : GatewayState) (tweet_id choice : String) :
    Except HandlerError VoteResult × GatewayState × List ApiCall :=
  let rl := check_rate_limit "tweet_actions" now st.counters
  if rl.1 = false then
    (.error (.rateLimit "Tweet action rate limit exceeded"),
     { counters := rl.2, clients := st.clients }, [])
  else
    (.ok { tweet_id := tweet_id, choice := choice, status := "voted" },
     { counters := rl.2, clients := st.clients }, [])

/-- A fully populated environment (every variable set to `"x"`), used by
the concrete witnesses. -/
def envAll : Env := fun _ => some "x"

/-- Initial gateway state: empty counters, both client globals `None`. -/
def gw0 : GatewayState :=
  { counters := rate_limit_counters_init, clients := clients_init }

/-- The modern client `initialize_twitter_clients` constructs under `envAll`. -/
def clientAll : TweepyClient :=
  { consumer_key := some "x", consumer_secret := some "x",
    access_token := some "x", access_token_secret := some "x",
    bearer_token := some "x" }

/-- The legacy client `initialize_twitter_clients` constructs under `envAll`. -/
def apiAll : TweepyAPI :=
  { consumer_key := some "x", consumer_secret := some "x",
    access_token := some "x", access_token_secret := some "x" }

/-- The cached client state after a successful first initialization. -/
def clientsAll : ClientState :=
  { _twitter_client := some clientAll, _twitter_v1_api := some apiAll }

theorem check_rate_limit_fresh {a : String} {p : RateLimitPolicy}
    (now : Nat) (m : RLState) (h : RATE_LIMITS a = some p) (hm : m a = none) :
    check_rate_limit a now m = (true, setCounter m a ⟨1, now + p.window⟩) := by
  have hpos := RATE_LIMITS_limit_pos h
  have hlt : ¬ p.limit ≤ 0 := by omega
  simp [check_rate_limit, h, getCounter, hm, hlt]

/-- C1: `check_rate_limit` satisfies the admission contract.  (i) A category
with no configured policy is always admitted and the counter dictionary is
untouched.  (ii) For a configured category whose counter is stale
(`reset_time ≤ now`) the counter is reset to `{count := 0, reset_time :=
now + window}` and the call itself is admitted, leaving `count = 1`.
(iii) If the window is current and `count` has reached `limit`, the call is
rejected and the state is completely unchanged.  (iv) If the window is
current and `count < limit`, the count is incremented and the call is
admitted.  (v) Consequently, starting from a fresh counter `{count := 0,
reset_time := r}`, any `limit` admissions at times inside the window
(`t < r`) all return `true`; the next call inside the window returns
`false` without changing the state; and once the window has elapsed
(`r ≤ t`) the next call returns `true` leaving `count = 1`. -/
theorem C1_check_rate_limit_contract :
    (∀ a now m, RATE_LIMITS a = none → check_rate_limit a now m = (true, m)) ∧
    (∀ a p now m c r, RATE_LIMITS a = some p → m a = some ⟨c, r⟩ → r ≤ now →
      check_rate_limit a now m = (true, setCounter m a ⟨1, now + p.window⟩)) ∧
    (∀ a p now m c r, RATE_LIMITS a = some p → m a = some ⟨c, r⟩ → now < r →
      p.limit ≤ c → check_rate_limit a now m = (false, m)) ∧
    (∀ a p now m c r, RATE_LIMITS a = some p → m a = some ⟨c, r⟩ → now < r →
      c < p.limit → check_rate_limit a now m = (true, setCounter m a ⟨c + 1, r⟩)) ∧
    (∀ a p m r ts, RATE_LIMITS a = some p → m a = some ⟨0, r⟩ →
      (∀ t ∈ ts, t < r) → ts.length = p.limit →
      (callSeq a ts m).1 = List.replicate p.limit true ∧
      (∀ t, t < r → check_rate_limit a t (callSeq a ts m).2 =
        (false, (callSeq a ts m).2)) ∧
      (∀ t, r ≤ t → (check_rate_limit a t (callSeq a ts m).2).1 = true ∧
        (check_rate_limit a t (callSeq a ts m).2).2 a = some ⟨1, t + p.window⟩)) := by
  refine ⟨fun a now m h => check_rate_limit_unconfigured a now m h,
    fun a p now m c r h hm hr => check_rate_limit_stale now m c r h hm hr,
    fun a p now m c r h hm hr hc => check_rate_limit_reject now m c r h hm hr hc,
    fun a p now m c r h hm hr hc => check_rate_limit_increment now m c r h hm hr hc,
    fun a p m r ts h hm hts hlen => ?_⟩
  have hcall := callSeq_admits h ts m 0 r hm hts (by omega)
  have hstate : (callSeq a ts m).2 = setCounter m a ⟨p.limit, r⟩ := by
    rw [hcall]; simp [hlen]
  have hlist : (callSeq a ts m).1 = List.replicate p.limit true := by
    rw [hcall]; simp [hlen]
  have hma : (callSeq a ts m).2 a = some ⟨p.limit, r⟩ := by
    rw [hstate]; exact setCounter_same m a _
  refine ⟨hlist, fun t ht => ?_, fun t ht => ?_⟩
  · exact check_rate_limit_reject t _ p.limit r h hma ht (le_refl _)
  · rw [check_rate_limit_stale t _ p.limit r h hma ht]
    exact ⟨rfl, setCounter_same _ a _⟩

/-- Counter dictionary for the C1 witness: `tweet_actions` holds a fresh
window `{count := 0, reset_time := 5}`. -/
def c1Counters : RLState :=
  setCounter rate_limit_counters_init "tweet_actions" ⟨0, 5⟩

set_option maxRecDepth 4000 in
theorem C1_check_rate_limit_contract_witness :
    check_rate_limit "unconfigured" 3 rate_limit_counters_init =
      (true, rate_limit_counters_init) ∧
    (callSeq "tweet_actions" (List.replicate 300 0) c1Counters).1 =
      List.replicate 300 true ∧
    check_rate_limit "tweet_actions" 0
        (callSeq "tweet_actions" (List.replicate 300 0) c1Counters).2 =
      (false, (callSeq "tweet_actions" (List.replicate 300 0) c1Counters).2) ∧
    (check_rate_limit "tweet_actions" 7
        (callSeq "tweet_actions" (List.replicate 300 0) c1Counters).2).1 = true ∧
    (check_rate_limit "tweet_actions" 7
        (callSeq "tweet_actions" (List.replicate 300 0) c1Counters).2).2
      "tweet_actions" = some ⟨1, 7 + 15 * 60⟩ := by
  have h := C1_check_rate_limit_contract
  have h5 := h.2.2.2.2 "tweet_actions" ⟨300, 15 * 60⟩ c1Counters 5
    (List.replicate 300 0) (by decide) (by decide)
    (fun t ht => by rw [List.eq_of_mem_replicate ht]; decide) (by decide)
  exact ⟨h.1 "unconfigured" 3 rate_limit_counters_init (by decide),
    h5.1, h5.2.1 0 (by decide), (h5.2.2 7 (by decide)).1, (h5.2.2 7 (by decide)).2⟩

/-- C2: for every state reachable from the empty counter dictionary by any
sequence of `check_rate_limit` calls, each configured category's stored
counter satisfies `count ≤ limit` (with `count : Nat`, so `count ∈
[0, limit]`); this holds unconditionally, in particular whenever the window
is up to date.  Moreover any call that returns `false` (a rejection) leaves
the whole counter dictionary completely unchanged. -/
theorem C2_counter_invariant_and_reject_frame :
    (∀ m, ReachableRL m → ∀ a p c, RATE_LIMITS a = some p → m a = some c →
      c.count ≤ p.limit) ∧
    (∀ a now m, (check_rate_limit a now m).1 = false →
      (check_rate_limit a now m).2 = m) := by
  constructor
  · intro m hm
    induction hm with
    | init =>
      intro a p c _ hc
      simp [rate_limit_counters_init] at hc
    | step a2 now2 m hrec ih =>
      intro a p c hp hc
      by_cases hab : a = a2
      · subst hab
        cases hpol : RATE_LIMITS a with
        | none =>
          rw [check_rate_limit_unconfigured a now2 m hpol] at hc
          exact ih a p c hp hc
        | some q =>
          have hq : q = p := by
            rw [hp] at hpol; exact (Option.some.inj hpol).symm
          subst hq
          have hpos := RATE_LIMITS_limit_pos hpol
          cases hma : m a with
          | none =>
            rw [check_rate_limit_fresh now2 m hpol hma] at hc
            simp [setCounter] at hc
            subst hc
            show 1 <= q.limit
            omega
          | some cr =>
            obtain ⟨cc, rr⟩ := cr
            by_cases hstale : rr ≤ now2
            · rw [check_rate_limit_stale now2 m cc rr hpol hma hstale] at hc
              simp [setCounter] at hc
              subst hc
              show 1 <= q.limit
              omega
            · have hlt : now2 < rr := by omega
              by_cases hcl : q.limit ≤ cc
              · rw [check_rate_limit_reject now2 m cc rr hpol hma hlt hcl] at hc
                exact ih a q c hp hc
              · have hcl2 : cc < q.limit := by omega
                rw [check_rate_limit_increment now2 m cc rr hpol hma hlt hcl2] at hc
                simp [setCounter] at hc
                subst hc
                show cc + 1 <= q.limit
                omega
      · rw [check_rate_limit_other a2 now2 m a hab] at hc
        exact ih a p c hp hc
  · intro a now m hfalse
    cases hpol : RATE_LIMITS a with
    | none =>
      rw [check_rate_limit_unconfigured a now m hpol] at hfalse
      simp at hfalse
    | some q =>
      cases hma : m a with
      | none =>
        rw [check_rate_limit_fresh now m hpol hma] at hfalse
        simp at hfalse
      | some cr =>
        obtain ⟨cc, rr⟩ := cr
        by_cases hstale : rr ≤ now
        · rw [check_rate_limit_stale now m cc rr hpol hma hstale] at hfalse
          simp at hfalse
        · have hlt : now < rr := by omega
          by_cases hcl : q.limit ≤ cc
          · rw [check_rate_limit_reject now m cc rr hpol hma hlt hcl]
          · have hcl2 : cc < q.limit := by omega
            rw [check_rate_limit_increment now m cc rr hpol hma hlt hcl2] at hfalse
            simp at hfalse

/-- Saturated counter dictionary for the C2 witness: `tweet_actions` at
`count = 300` inside a current window. -/
def c2Counters : RLState :=
  setCounter rate_limit_counters_init "tweet_actions" ⟨300, 100⟩

theorem C2_counter_invariant_and_reject_frame_witness :
    (RateLimitCounter.mk 1 905).count ≤ 300 ∧
    (check_rate_limit "tweet_actions" 5 c2Counters).2 = c2Counters := by
  have h := C2_counter_invariant_and_reject_frame
  constructor
  · exact h.1 _ (ReachableRL.step "tweet_actions" 5 rate_limit_counters_init
      ReachableRL.init) "tweet_actions" ⟨300, 15 * 60⟩ ⟨1, 905⟩ (by decide) (by decide)
  · exact h.2 "tweet_actions" 5 c2Counters (by decide)

theorem find_first_unique {α : Type} {p : α → Bool} {v : α} :
    ∀ {l : List α}, v ∈ l → p v = true → (∀ w ∈ l, p w = true → w = v) →
      l.find? p = some v
  | [], h, _, _ => absurd h (List.not_mem_nil v)
  | x :: xs, hmem, hv, huniq => by
    by_cases hx : p x = true
    · have hxv : x = v := huniq x (by simp) hx
      subst hxv
      simp [List.find?_cons_of_pos _ hx]
    · have hmem2 : v ∈ xs := by
        cases hmem with
        | head => exact absurd hv hx
        | tail _ h2 => exact h2
      have huniq2 : ∀ w ∈ xs, p w = true → w = v :=
        fun w hw hpw => huniq w (by simp [hw]) hpw
      have hrec := find_first_unique hmem2 hv huniq2
      simp only [List.find?_cons_of_neg _ hx]
      exact hrec

/-- C3: if at least one of the two client globals is still `None` (in
particular on the first handle acquisition) and exactly one required
credential is missing or empty, `initialize_twitter_clients` fails with the
`EnvironmentError` whose message names exactly that variable, and the
globals are left unchanged (no client is constructed or cached). -/
theorem C3_missing_credential_error :
    ∀ (env : Env) (st : ClientState) (v : String),
      st._twitter_client = none ∨ st._twitter_v1_api = none →
      v ∈ required_env_vars → envMissing env v = true →
      (∀ w ∈ required_env_vars, envMissing env w = true → w = v) →
      initialize_twitter_clients env st =
        (.error (.config ("Missing required environment variable: " ++ v)), st) := by
  intro env st v hfirst hv hmiss huniq
  have hfind : required_env_vars.find? (fun w => envMissing env w) = some v :=
    find_first_unique hv hmiss huniq
  obtain ⟨oc, oa⟩ := st
  cases oc with
  | none => simp [initialize_twitter_clients, hfind]
  | some c =>
    cases oa with
    | none => simp [initialize_twitter_clients, hfind]
    | some a => rcases hfirst with h | h <;> simp at h

/-- An environment with only the access-token-secret unset. -/
def envNoSecret : Env :=
  fun s => if s = "TWITTER_ACCESS_TOKEN_SECRET" then none else some "x"

theorem C3_missing_credential_error_witness :
    initialize_twitter_clients envNoSecret clients_init =
      (.error (.config
        "Missing required environment variable: TWITTER_ACCESS_TOKEN_SECRET"),
       clients_init) := by
  exact C3_missing_credential_error envNoSecret clients_init
    "TWITTER_ACCESS_TOKEN_SECRET" (Or.inl rfl) (by decide) (by decide) (by decide)

theorem initialize_ok_cached {env : Env} {st : ClientState}
    {p : TweepyClient × TweepyAPI} {st2 : ClientState}
    (h : initialize_twitter_clients env st = (.ok p, st2)) :
    st2._twitter_client = some p.1 ∧ st2._twitter_v1_api = some p.2 := by
  obtain ⟨oc, oa⟩ := st
  cases oc with
  | some c =>
    cases oa with
    | some a =>
      simp only [initialize_twitter_clients] at h
      injection h with h1 h2
      injection h1 with h3
      subst h2
      simp [← h3]
    | none =>
      simp only [initialize_twitter_clients] at h
      cases hf : required_env_vars.find? (fun w => envMissing env w) <;> rw [hf] at h
      · injection h with h1 h2
        injection h1 with h3
        subst h2
        simp [← h3]
      · exact absurd h (by simp)
  | none =>
    simp only [initialize_twitter_clients] at h
    cases hf : required_env_vars.find? (fun w => envMissing env w) <;> rw [hf] at h
    · injection h with h1 h2
      injection h1 with h3
      subst h2
      simp [← h3]
    · exact absurd h (by simp)

/-- C4: `initialize_twitter_clients` is idempotent after a successful call:
from the state any successful call returns, every later call returns the
same cached pair and the same state — for ANY environment, in particular
one from which every variable has been deleted, so credentials are neither
re-read nor re-validated and no new client is constructed. -/
theorem C4_initialize_idempotent :
    ∀ (env env2 : Env) (st : ClientState) (p : TweepyClient × TweepyAPI)
      (st2 : ClientState),
      initialize_twitter_clients env st = (.ok p, st2) →
      initialize_twitter_clients env2 st2 = (.ok p, st2) := by
  intro env env2 st p st2 h
  have hc := initialize_ok_cached h
  obtain ⟨st2c, st2a⟩ := st2
  simp only [] at hc
  obtain ⟨h1, h2⟩ := hc
  subst h1
  subst h2
  rfl

theorem C4_initialize_idempotent_witness :
    initialize_twitter_clients (fun _ => none) clientsAll =
      (.ok (clientAll, apiAll), clientsAll) := by
  exact C4_initialize_idempotent envAll (fun _ => none) clients_init
    (clientAll, apiAll) clientsAll (by decide)

/-- C5 counterexample: the claim "every paginated handler clamps the
caller-supplied count to the platform's documented bounds before the
upstream call, never passing through an out-of-range value" is false:
`get_user_followers` (documented bound: at most 100 per page) forwards
`count = 500` to the upstream `get_users_followers` call unmodified. -/
theorem C5_counterexample_followers_no_clamp :
    (get_user_followers 0 envAll gw0 "u" (some 500) none (some [])).2.2 =
      [ApiCall.get_users_followers "u" (some 500) none] ∧
    ¬ ((500 : Int) ≤ 100) := by
  exact ⟨by decide, by decide⟩

/-- C5 (amended): only `search_twitter` clamps: `count = None` defaults to
an effective count of 100; `count` below 10 is raised to 10 and above 100
lowered to 100, each with a diagnostic; in-range values pass through with
no diagnostic; the clamped value always lies in `[10, 100]` and is what the
upstream `search_recent_tweets` call receives.  Other paginated handlers do
NOT clamp: `get_user_followers` forwards the caller-supplied count to the
upstream call unmodified. -/
theorem C5_amended_count_clamp_policy :
    ((search_count_clamp none).1 = 100 ∧
     (search_count_clamp (some 5)).1 = 10 ∧ (search_count_clamp (some 5)).2 ≠ [] ∧
     (search_count_clamp (some 500)).1 = 100 ∧
     (search_count_clamp (some 500)).2 ≠ []) ∧
    (∀ count, 10 ≤ (search_count_clamp count).1 ∧
      (search_count_clamp count).1 ≤ 100) ∧
    (∀ c : Int, 10 ≤ c → c ≤ 100 → search_count_clamp (some c) = (c, [])) ∧
    (∀ env cst q prod count cur td p cs,
      initialize_twitter_clients env cst = (.ok p, cs) →
      (search_twitter env cst q prod count cur td).2.2.1 =
        [ApiCall.search_recent_tweets q (search_count_clamp count).1
          (if prod = some "Top" then "relevancy" else "recency") cur]) ∧
    (∀ now env st u count cur fd,
      (check_rate_limit "follow_actions" now st.counters).1 = true →
      ∀ p cs, initialize_twitter_clients env st.clients = (.ok p, cs) →
      (get_user_followers now env st u count cur fd).2.2 =
        [ApiCall.get_users_followers u count cur]) := by
  refine ⟨⟨by decide, by decide, by decide, by decide, by decide⟩, ?_, ?_, ?_, ?_⟩
  · intro count
    cases count with
    | none => exact ⟨by decide, by decide⟩
    | some c =>
      by_cases h1 : c < 10
      · simp [search_count_clamp, h1]
      · by_cases h2 : c > 100
        · simp [search_count_clamp, h1, h2]
        · constructor <;> simp [search_count_clamp, h1, h2] <;> omega
  · intro c h1 h2
    have hn1 : ¬ c < 10 := by omega
    have hn2 : ¬ c > 100 := by omega
    simp [search_count_clamp, hn1, hn2]
  · intro env cst q prod count cur td p cs hinit
    simp [search_twitter, hinit]
  · intro now env st u count cur fd hadm p cs hinit
    simp [get_user_followers, hadm, hinit]

theorem C5_amended_count_clamp_policy_witness :
    (search_count_clamp (some 50)).1 = 50 ∧
    (search_twitter envAll clients_init "q" (some "Top") (some 500) none
      (some [])).2.2.1 = [ApiCall.search_recent_tweets "q" 100 "relevancy" none] ∧
    (get_user_followers 0 envAll gw0 "u2" (some 7) none (some [])).2.2 =
      [ApiCall.get_users_followers "u2" (some 7) none] := by
  have h := C5_amended_count_clamp_policy
  refine ⟨?_, ?_, ?_⟩
  · have h1 := h.2.2.1 50 (by decide) (by decide)
    rw [h1]
  · have h2 := h.2.2.2.1 envAll clients_init "q" (some "Top") (some 500) none
      (some []) (clientAll, apiAll) clientsAll (by decide)
    exact h2.trans (by decide)
  · exact h.2.2.2.2 0 envAll gw0 "u2" (some 7) none (some []) (by decide)
      (clientAll, apiAll) clientsAll (by decide)

/-- C6: `post_tweet` with a non-empty tags list appends
`" #t1 ... #tn"` to the text argument.  If admission is denied no upstream
call at all happens (so the append is only reachable after admission); if
admission succeeds and the clients initialize, the trace is exactly the
media uploads followed by one `create_tweet` whose transmitted text is
`text ++ " " ++ "#t1 #t2 ..."` — for arbitrary `text`, of any length: no
local character-count validation is performed. -/
theorem C6_post_tweet_appends_tags :
    ∀ now env st text mp reply ts oracle cd,
      ts ≠ [] →
      ((check_rate_limit "tweet_actions" now st.counters).1 = false →
        (post_tweet now env st text mp reply (some ts) oracle cd).2.2 = []) ∧
      (∀ p cs, (check_rate_limit "tweet_actions" now st.counters).1 = true →
        initialize_twitter_clients env st.clients = (.ok p, cs) →
        ∃ d : TweetData,
          (post_tweet now env st text mp reply (some ts) oracle cd).2.2 =
            (if pyTruthyOptList mp then
              (mp.getD []).map ApiCall.media_upload else []) ++
            [ApiCall.create_tweet d] ∧
          d.text = text ++ " " ++
            String.intercalate " " (ts.map (fun tag => "#" ++ tag))) := by
  intro now env st text mp reply ts oracle cd hts
  constructor
  · intro hful
    simp [post_tweet, hful]
  · intro p cs hadm hinit
    have htags : pyTruthyOptList (some ts) = true := by
      simp [pyTruthyOptList]
      exact hts
    by_cases hreply : pyTruthyOptStr reply = true
    · by_cases hmp : pyTruthyOptList mp = true
      · refine ⟨⟨text ++ " " ++ String.intercalate " " (ts.map (fun tag => "#" ++ tag)),
          reply, some ((mp.getD []).map oracle)⟩, ?_, rfl⟩
        simp [post_tweet, hadm, hinit, htags, hreply, hmp]
      · refine ⟨⟨text ++ " " ++ String.intercalate " " (ts.map (fun tag => "#" ++ tag)),
          reply, none⟩, ?_, rfl⟩
        simp [post_tweet, hadm, hinit, htags, hreply, hmp]
    · by_cases hmp : pyTruthyOptList mp = true
      · refine ⟨⟨text ++ " " ++ String.intercalate " " (ts.map (fun tag => "#" ++ tag)),
          none, some ((mp.getD []).map oracle)⟩, ?_, rfl⟩
        simp [post_tweet, hadm, hinit, htags, hreply, hmp]
      · refine ⟨⟨text ++ " " ++ String.intercalate " " (ts.map (fun tag => "#" ++ tag)),
          none, none⟩, ?_, rfl⟩
        simp [post_tweet, hadm, hinit, htags, hreply, hmp]

theorem C6_post_tweet_appends_tags_witness :
    ∃ d : TweetData,
      (post_tweet 0 envAll gw0 "hello" none none (some ["a", "b"])
        (fun _ => "m") (some "d")).2.2 =
        (if pyTruthyOptList (none : Option (List String)) then
          ((none : Option (List String)).getD []).map ApiCall.media_upload
         else []) ++ [ApiCall.create_tweet d] ∧
      d.text = "hello" ++ " " ++
        String.intercalate " " (["a", "b"].map (fun tag => "#" ++ tag)) := by
  exact (C6_post_tweet_appends_tags 0 envAll gw0 "hello" none none ["a", "b"]
    (fun _ => "m") (some "d") (by decide)).2 (clientAll, apiAll) clientsAll
    (by decide) (by decide)

theorem removeBookmarksLoop_ok (remove : String → Option String) :
    ∀ ids : List String, (∀ i ∈ ids, remove i = none) →
      removeBookmarksLoop remove ids = (none, ids.map ApiCall.remove_bookmark)
  | [], _ => rfl
  | i :: rest, h => by
    have hi : remove i = none := h i (by simp)
    have hrec := removeBookmarksLoop_ok remove rest (fun j hj => h j (by simp [hj]))
    simp [removeBookmarksLoop, hi, hrec]

theorem removeBookmarksLoop_fail (remove : String → Option String) (e : String)
    (bad : String) (hbad : remove bad = some e) :
    ∀ (pre : List String), (∀ i ∈ pre, remove i = none) → ∀ post,
      removeBookmarksLoop remove (pre ++ bad :: post) =
        (some e, pre.map ApiCall.remove_bookmark ++ [ApiCall.remove_bookmark bad])
  | [], _, post => by simp [removeBookmarksLoop, hbad]
  | i :: pre, h, post => by
    have hi : remove i = none := h i (by simp)
    have hrec := removeBookmarksLoop_fail remove e bad hbad pre
      (fun j hj => h j (by simp [hj])) post
    simp [removeBookmarksLoop, hi, hrec]

/-- C7: `delete_all_bookmarks` fetches the full list once and deletes in
fetched order.  If every delete succeeds the trace is `get_bookmarks`
followed by one `remove_bookmark` per item in order and the canned success
status is returned.  If the delete of some item fails, the trace stops at
that item (later items are never attempted, earlier deletions stand — no
rollback calls exist), and the handler result is the upstream failure
itself (`UpstreamAPIError` kind preserved), not any partial-success
status. -/
theorem C7_delete_all_bookmarks_fail_fast :
    ∀ now env st remove p cs,
      (check_rate_limit "tweet_actions" now st.counters).1 = true →
      initialize_twitter_clients env st.clients = (.ok p, cs) →
      (∀ ids, (∀ i ∈ ids, remove i = none) →
        (delete_all_bookmarks now env st (some ids) remove).1 =
          .ok "all bookmarks deleted" ∧
        (delete_all_bookmarks now env st (some ids) remove).2.2 =
          ApiCall.get_bookmarks :: ids.map ApiCall.remove_bookmark) ∧
      (∀ pre bad post e, (∀ i ∈ pre, remove i = none) → remove bad = some e →
        (delete_all_bookmarks now env st (some (pre ++ bad :: post)) remove).1 =
          .error (.upstream e) ∧
        (delete_all_bookmarks now env st (some (pre ++ bad :: post)) remove).2.2 =
          ApiCall.get_bookmarks :: (pre.map ApiCall.remove_bookmark ++
            [ApiCall.remove_bookmark bad])) := by
  intro now env st remove p cs hadm hinit
  constructor
  · intro ids hok
    have hloop := removeBookmarksLoop_ok remove ids hok
    constructor <;> simp [delete_all_bookmarks, hadm, hinit, hloop]
  · intro pre bad post e hpre hbad
    have hloop := removeBookmarksLoop_fail remove e bad hbad pre hpre post
    constructor <;> simp [delete_all_bookmarks, hadm, hinit, hloop]

/-- Delete oracle for the C7 witness: the delete of bookmark `"b2"` fails
upstream with message `"boom"`, all others succeed. -/
def removeFailB2 : String → Option String :=
  fun i => if i = "b2" then some "boom" else none

theorem C7_delete_all_bookmarks_fail_fast_witness :
    (delete_all_bookmarks 0 envAll gw0 (some ["b1", "b2", "b3"])
      removeFailB2).1 = .error (.upstream "boom") ∧
    (delete_all_bookmarks 0 envAll gw0 (some ["b1", "b2", "b3"])
      removeFailB2).2.2 =
      ApiCall.get_bookmarks :: (["b1"].map ApiCall.remove_bookmark ++
        [ApiCall.remove_bookmark "b2"]) := by
  exact (C7_delete_all_bookmarks_fail_fast 0 envAll gw0 removeFailB2
    (clientAll, apiAll) clientsAll (by decide) (by decide)).2
    ["b1"] "b2" ["b3"] "boom" (by decide) (by decide)

/-- C8 (code bug in the source): the claim says every handler checks the
payload envelope before dereferencing, returning an explicit empty result
on a "no data" upstream response.  `delete_all_bookmarks` does not: it
iterates `bookmarks.data` without the `or []` guard every list handler
uses, so a null envelope (user has no bookmarks) raises a Python
`TypeError` instead of returning an empty/absent result.  For contrast,
the second conjunct shows `get_user_followers` on the same null envelope
returns the explicit empty list, as the claim requires. -/
theorem C8_delete_all_bookmarks_null_envelope_crash :
    (delete_all_bookmarks 0 envAll gw0 none (fun _ => none)).1 =
      .error (.typeError "NoneType object is not iterable") ∧
    (get_user_followers 0 envAll gw0 "u" (some 100) none none).1 = .ok [] := by
  exact ⟨by decide, by decide⟩

/-- C9: `get_user_followers_you_know` returns the fetched follower list
truncated to the requested count — the first `min(count, length)` payloads
in fetched order (a Python `[:count]` slice), with a single upstream
followers fetch and no intersection computation. -/
theorem C9_followers_you_know_truncates :
    ∀ now env st u (c : Int) cur l p cs,
      (check_rate_limit "follow_actions" now st.counters).1 = true →
      initialize_twitter_clients env st.clients = (.ok p, cs) →
      0 ≤ c →
      (get_user_followers_you_know now env st u (some c) cur (some l)).1 =
        .ok ((l.map TUser.data).take c.toNat) ∧
      (get_user_followers_you_know now env st u (some c) cur (some l)).2.2 =
        [ApiCall.get_users_followers u (some c) cur] ∧
      ((l.map TUser.data).take c.toNat).length =
        min c.toNat (l.map TUser.data).length := by
  intro now env st u c cur l p cs hadm hinit hc
  have hneg : ¬ c < 0 := by omega
  have hslice : pySlice (l.map TUser.data) (some c) = (l.map TUser.data).take c.toNat := by
    simp [pySlice, hneg]
  refine ⟨?_, ?_, ?_⟩
  · simp [get_user_followers_you_know, hadm, hinit, hslice]
  · simp [get_user_followers_you_know, hadm, hinit]
  · exact List.length_take c.toNat (l.map TUser.data)

theorem C9_followers_you_know_truncates_witness :
    (get_user_followers_you_know 0 envAll gw0 "123" (some 3) none
      (some [⟨"u1"⟩, ⟨"u2"⟩, ⟨"u3"⟩, ⟨"u4"⟩, ⟨"u5"⟩])).1 =
      .ok ["u1", "u2", "u3"] ∧
    (get_user_followers_you_know 0 envAll gw0 "123" (some 3) none
      (some [⟨"u1"⟩, ⟨"u2"⟩, ⟨"u3"⟩, ⟨"u4"⟩, ⟨"u5"⟩])).2.2 =
      [ApiCall.get_users_followers "123" (some 3) none] := by
  have h := C9_followers_you_know_truncates 0 envAll gw0 "123" 3 none
    [⟨"u1"⟩, ⟨"u2"⟩, ⟨"u3"⟩, ⟨"u4"⟩, ⟨"u5"⟩] (clientAll, apiAll) clientsAll
    (by decide) (by decide) (by decide)
  exact ⟨h.1.trans (by decide), h.2.1⟩

/-- C10: `vote_on_poll`, once admitted by the `tweet_actions` limiter,
returns the canned acknowledgment `{"tweet_id": ..., "choice": ...,
"status": "voted"}` for every input, performs no upstream call (empty
trace), never acquires a client handle (the client globals are untouched —
indeed the model needs no environment argument at all), and the only state
it modifies is the `tweet_actions` rate-limit counter: every other
category's entry is unchanged. -/
theorem C10_vote_on_poll_mocked_no_network :
    ∀ now st tid ch,
      (check_rate_limit "tweet_actions" now st.counters).1 = true →
      (vote_on_poll now st tid ch).1 =
        .ok { tweet_id := tid, choice := ch, status := "voted" } ∧
      (vote_on_poll now st tid ch).2.2 = [] ∧
      (vote_on_poll now st tid ch).2.1.clients = st.clients ∧
      (vote_on_poll now st tid ch).2.1.counters =
        (check_rate_limit "tweet_actions" now st.counters).2 ∧
      (∀ b, b ≠ "tweet_actions" →
        (vote_on_poll now st tid ch).2.1.counters b = st.counters b) := by
  intro now st tid ch hadm
  have hred : vote_on_poll now st tid ch =
      (.ok { tweet_id := tid, choice := ch, status := "voted" },
       { counters := (check_rate_limit "tweet_actions" now st.counters).2,
         clients := st.clients }, []) := by
    simp [vote_on_poll, hadm]
  rw [hred]
  exact ⟨rfl, rfl, rfl, rfl,
    fun b hb => check_rate_limit_other "tweet_actions" now st.counters b hb⟩

theorem C10_vote_on_poll_mocked_no_network_witness :
    (vote_on_poll 0 gw0 "t1" "c1").1 =
      .ok { tweet_id := "t1", choice := "c1", status := "voted" } ∧
    (vote_on_poll 0 gw0 "t1" "c1").2.2 = [] ∧
    (vote_on_poll 0 gw0 "t1" "c1").2.1.clients = gw0.clients ∧
    (vote_on_poll 0 gw0 "t1" "c1").2.1.counters "like_actions" =
      gw0.counters "like_actions" := by
  have h := C10_vote_on_poll_mocked_no_network 0 gw0 "t1" "c1" (by decide)
  exact ⟨h.1, h.2.1, h.2.2.1, h.2.2.2.2 "like_actions" (by decide)⟩
